import Mathlib

/-!
Shallow embedding of the redactor crate (src/redis_actor.rs, src/lib.rs):
an actix actor that forwards single Redis commands (`Cmd`) and pipelines
(`Pipe`) to the redis crate's async API. Network behaviour of the external
redis library and store is modelled by an explicit `World` oracle; the
repository's own code (the `Error` wrapper, the message handlers, the
configuration builder and `start`) is translated definition by definition.
-/

namespace Redactor

/-- Kinds of underlying failures, following the spec's error taxonomy.
The origin kind is information the underlying library errors carry
(for example `redis::ErrorKind`) before the crate wraps them. -/
inductive ErrorKind
  | connection
  | execution
  | circuitOpen
  | configuration
deriving DecidableEq

/-- An underlying failure as seen by the crate's `From` conversion: a value
implementing Rust's `error::Error`, with its origin kind and the string
returned by `err.description()`. -/
structure SourceError where
  origin : ErrorKind
  description : String
deriving DecidableEq

/-- The crate's error type, `pub struct Error(String)`: a single
human-readable message and nothing else. -/
structure Error where
  msg : String
deriving DecidableEq

/-- The conversion `impl<E: error::Error> From<E> for Error`: it keeps only
`err.description().to_string()`, discarding everything else about the
underlying failure. -/
def Error.ofSource (e : SourceError) : Error :=
  ⟨e.description⟩

/-- A single Redis command (`redis::Cmd`): an operation name with ordered
arguments. -/
structure RCmd where
  name : String
  args : List String
deriving DecidableEq

/-- A Redis pipeline (`redis::Pipeline`): an ordered sequence of commands
executed in one round trip. -/
structure Pipeline where
  commands : List RCmd
deriving DecidableEq

/-- The `Clone` implementation for pipelines: a deep copy of the command
sequence, owned by whoever asked for it. -/
def Pipeline.clone (p : Pipeline) : Pipeline :=
  ⟨p.commands⟩

/-- The `Pipe` message wrapper, `pub struct Pipe(redis::Pipeline)`. -/
structure Pipe where
  pipeline : Pipeline
deriving DecidableEq

/-- A Redis reply value (`redis::Value` of the redis 0.x crate). -/
inductive Value
  | nil
  | int (i : Int)
  | data (bytes : List Nat)
  | bulk (items : List Value)
  | status (s : String)
  | okay

/-- A parsed client handle (`redis::Client`): it retains only the validated
connection parameters taken from the URI; no connection is held. -/
structure Client where
  uri : String
deriving DecidableEq

/-- A live async connection handle obtained from a client. -/
structure Conn where
  id : Nat
deriving DecidableEq

/-- Store-facing I/O effects a handler can perform, in order: attempting to
obtain a connection, and sending a query over it. -/
inductive Effect
  | connectAttempt
  | query
deriving DecidableEq

/-- The network oracle: what the external redis library and backing store
would answer for a connection attempt and for each command sent over a
connection. -/
structure World where
  connect : Client → Except SourceError Conn
  run : Conn → RCmd → Except SourceError Value

/-- Modelled from the spec: the external store executes a pipeline's
commands in sequence order and yields one reply per command, aligned 1:1
with input order; the first store-side failure aborts the round trip.
This is the behaviour of `redis::Pipeline::query_async`, which is outside
this repository. -/
def World.runPipe (w : World) (conn : Conn) : List RCmd → Except SourceError (List Value)
  | [] => .ok []
  | c :: cs =>
    match w.run conn c with
    | .error e => .error e
    | .ok v =>
      match w.runPipe conn cs with
      | .error e => .error e
      | .ok vs => .ok (v :: vs)

/-- The actor state, `pub struct RedisActor { client: redis::Client }`:
nothing besides the parsed client is retained. -/
structure RedisActor where
  client : Client
deriving DecidableEq

/-- Outcome of one message handling: the actor state afterwards (`handle`
takes `&mut self`), the store-facing effects performed in order, and the
value returned to the caller. -/
structure StepResult where
  actor : RedisActor
  effects : List Effect
  result : Except Error Value

/-- `Handler<Cmd> for RedisActor`: unconditionally call
`get_async_connection`, then `query_async` the command, wrapping any
failure through `Error::from`; the actor state is left untouched. -/
def RedisActor.handleCmd (a : RedisActor) (w : World) (msg : RCmd) : StepResult :=
  match w.connect a.client with
  | .error e => ⟨a, [.connectAttempt], .error (Error.ofSource e)⟩
  | .ok conn =>
    match w.run conn msg with
    | .error e => ⟨a, [.connectAttempt, .query], .error (Error.ofSource e)⟩
    | .ok v => ⟨a, [.connectAttempt, .query], .ok v⟩

/-- `Handler<Pipe> for RedisActor`: identical shape to the `Cmd` handler,
with the pipeline queried in one round trip; a successful reply is the
ordered bulk of per-command replies. -/
def RedisActor.handlePipe (a : RedisActor) (w : World) (msg : Pipe) : StepResult :=
  match w.connect a.client with
  | .error e => ⟨a, [.connectAttempt], .error (Error.ofSource e)⟩
  | .ok conn =>
    match w.runPipe conn msg.pipeline.commands with
    | .error e => ⟨a, [.connectAttempt, .query], .error (Error.ofSource e)⟩
    | .ok vs => ⟨a, [.connectAttempt, .query], .ok (.bulk vs)⟩

/-- The configuration record `RedisConfig`. Durations are nanoseconds. -/
structure RedisConfig where
  use_breaker : Bool
  exponential_backoff : Nat × Nat
  errors_threshold : Nat
  connection_probe : Bool
  redis_uri : String
deriving DecidableEq

/-- `impl Default for RedisConfig`: breaker off, zero backoff bounds, zero
threshold, probe off, local default store address. -/
def RedisConfig.default : RedisConfig :=
  { use_breaker := false
    exponential_backoff := (0, 0)
    errors_threshold := 0
    connection_probe := false
    redis_uri := "redis://127.0.0.1:6379" }

/-- The fluent builder, `pub struct RedisActorBuilder(RedisConfig)`. -/
structure RedisActorBuilder where
  config : RedisConfig
deriving DecidableEq

/-- `RedisActor::build()`: a builder holding the default configuration. -/
def RedisActor.build : RedisActorBuilder :=
  ⟨RedisConfig.default⟩

/-- Builder setter `use_breaker`. -/
def RedisActorBuilder.use_breaker (b : RedisActorBuilder) : RedisActorBuilder :=
  ⟨{ b.config with use_breaker := true }⟩

/-- Builder setter `exponential_backoff(min, max)`. -/
def RedisActorBuilder.exponential_backoff (b : RedisActorBuilder) (lo hi : Nat) :
    RedisActorBuilder :=
  ⟨{ b.config with exponential_backoff := (lo, hi) }⟩

/-- Builder setter `errors_threshold(count)`. -/
def RedisActorBuilder.errors_threshold (b : RedisActorBuilder) (count : Nat) :
    RedisActorBuilder :=
  ⟨{ b.config with errors_threshold := count }⟩

/-- Builder setter `use_connection_probe`. -/
def RedisActorBuilder.use_connection_probe (b : RedisActorBuilder) : RedisActorBuilder :=
  ⟨{ b.config with connection_probe := true }⟩

/-- Builder setter `set_uri` (the `ToString` bound collapses to the string
itself here). -/
def RedisActorBuilder.set_uri (b : RedisActorBuilder) (arg : String) : RedisActorBuilder :=
  ⟨{ b.config with redis_uri := arg }⟩

/-- Error kinds of the external redis crate's `RedisError` that matter
here; `invalidClientConfig` is the kind produced when a URI fails to
parse, the spec's Configuration startup failure. -/
inductive RedisErrorKind
  | invalidClientConfig
  | ioError
deriving DecidableEq

/-- The external redis crate's error type, kind plus description. -/
structure RedisError where
  kind : RedisErrorKind
  msg : String
deriving DecidableEq

/-- Modelled from the external redis crate: a store address parses when it
uses the `redis://` or `unix://` scheme. Parsing performs no I/O. The check
is over the character sequence of the URI. -/
def validRedisUri (uri : String) : Bool :=
  uri.data.take 8 == "redis://".data || uri.data.take 7 == "unix://".data

/-- Modelled from the external redis crate: `redis::Client::open` parses
and validates the URI, returning a client holding the connection
parameters, or an `InvalidClientConfig` error; it never touches the
network. -/
def Client.open (uri : String) : Except RedisError Client :=
  if validRedisUri uri then .ok ⟨uri⟩ else .error ⟨.invalidClientConfig, "Redis URL did not parse"⟩

/-- `RedisActorBuilder::start`: open a client from the configured URI and
start the actor around it. The first component records the store-facing
I/O effects performed during startup: the source performs none
(`Client::open` only parses; `actor.start()` only spawns the actor), and
no field of the configuration other than `redis_uri` is read. -/
def RedisActorBuilder.start (b : RedisActorBuilder) :
    List Effect × Except RedisError RedisActor :=
  match Client.open b.config.redis_uri with
  | .error e => ([], .error e)
  | .ok c => ([], .ok ⟨c⟩)

/-- Caller-side mutable storage: a `&mut redis::Pipeline` the caller holds
points at a slot of this heap. -/
def Heap := Nat → Pipeline

/-- Read the pipeline a reference points at. -/
def Heap.get (hp : Heap) (r : Nat) : Pipeline :=
  hp r

/-- Write through a reference. -/
def Heap.set (hp : Heap) (r : Nat) (p : Pipeline) : Heap :=
  fun s => if s = r then p else hp s

/-- `Pipe::line(rpipe: &mut redis::Pipeline)`: dereference the caller's
pipeline and clone it into an owned message. -/
def Pipe.line (hp : Heap) (r : Nat) : Pipe :=
  ⟨(hp.get r).clone⟩

/-- A store that refuses every connection attempt: every `connect` fails
with a connection-origin error, and (unreachably) every query fails too. -/
def refusedWorld : World :=
  { connect := fun _ => .error ⟨.connection, "Connection refused"⟩
    run := fun _ _ => .error ⟨.execution, "unreachable"⟩ }

/-- A healthy store: connections succeed and each command is answered by a
status reply echoing its operation name. -/
def okWorld : World :=
  { connect := fun _ => .ok ⟨0⟩
    run := fun _ c => .ok (.status c.name) }

/-- Pointwise successful runs lift to a successful pipeline round trip
whose replies are the commands' replies, in order. -/
theorem World.runPipe_ok (w : World) (conn : Conn) (reply : RCmd → Value) :
    ∀ cs : List RCmd, (∀ c ∈ cs, w.run conn c = .ok (reply c)) →
      w.runPipe conn cs = .ok (cs.map reply) := by
  intro cs
  induction cs with
  | nil => intro _; rfl
  | cons c cs ih =>
    intro hall
    have hc : w.run conn c = .ok (reply c) := hall c (List.mem_cons_self c cs)
    have hrest : w.runPipe conn cs = .ok (cs.map reply) :=
      ih fun d hd => hall d (List.mem_cons_of_mem c hd)
    simp [World.runPipe, hc, hrest]

/-- Handling a single command always begins with a connection attempt and
leaves the actor state untouched, whatever the store answers. -/
theorem handleCmd_shape (a : RedisActor) (w : World) (c : RCmd) :
    Effect.connectAttempt ∈ (a.handleCmd w c).effects ∧ (a.handleCmd w c).actor = a := by
  unfold RedisActor.handleCmd
  constructor <;>
  · split
    · simp
    · split <;> simp

/-- Starting a builder depends only on the configured URI: every other
configuration field is dead to `start`. -/
theorem start_uri_congr (c1 c2 : RedisConfig) (h : c1.redis_uri = c2.redis_uri) :
    (RedisActorBuilder.mk c1).start = (RedisActorBuilder.mk c2).start := by
  simp only [RedisActorBuilder.start, h]

/-- C1 (counterexample): with the breaker enabled and `errors_threshold 1`,
against a store that refuses every connection, the first command fails with
a connection failure — and the second (the (k+1)-th for k = 1) still
attempts a connection and returns that same plain connection error, not any
circuit-open rejection; the actor state never changes between calls. -/
theorem c1_counterexample :
    (RedisActor.build.use_breaker.errors_threshold 1).start.2 =
      .ok ⟨⟨"redis://127.0.0.1:6379"⟩⟩ ∧
    (RedisActor.handleCmd ⟨⟨"redis://127.0.0.1:6379"⟩⟩ refusedWorld ⟨"PING", []⟩).result =
      .error ⟨"Connection refused"⟩ ∧
    (RedisActor.handleCmd ⟨⟨"redis://127.0.0.1:6379"⟩⟩ refusedWorld ⟨"PING", []⟩).actor =
      ⟨⟨"redis://127.0.0.1:6379"⟩⟩ ∧
    Effect.connectAttempt ∈
      (RedisActor.handleCmd ⟨⟨"redis://127.0.0.1:6379"⟩⟩ refusedWorld ⟨"PING", []⟩).effects := by
  refine ⟨rfl, rfl, rfl, ?_⟩
  simp [RedisActor.handleCmd, refusedWorld]

/-- C1 (amended): the breaker settings are stored in the configuration but
never consulted. Every submitted command attempts a connection, the actor
state (only the client) is unchanged by handling, and enabling the breaker
or setting a threshold changes nothing observable about `start`. -/
theorem c1_amended (a : RedisActor) (w : World) (c : RCmd) (b : RedisActorBuilder) (n : Nat) :
    Effect.connectAttempt ∈ (a.handleCmd w c).effects ∧
    (a.handleCmd w c).actor = a ∧
    b.use_breaker.start = b.start ∧
    (b.errors_threshold n).start = b.start :=
  ⟨(handleCmd_shape a w c).1, (handleCmd_shape a w c).2, rfl, rfl⟩

/-- C2 (counterexample): a connection-origin failure and an
execution-origin failure with the same description produce identical
`Error` values, so the returned error carries no kind a caller could
branch on. -/
theorem c2_counterexample :
    Error.ofSource ⟨.connection, "timeout"⟩ = Error.ofSource ⟨.execution, "timeout"⟩ :=
  rfl

/-- C2 (amended): an error returned to a caller is exactly the underlying
failure's human-readable description and nothing more; failures agreeing
on description are indistinguishable whatever their kinds. -/
theorem c2_amended (e : SourceError) :
    Error.ofSource e = ⟨e.description⟩ ∧
    ∀ e2 : SourceError, e2.description = e.description →
      Error.ofSource e2 = Error.ofSource e := by
  refine ⟨rfl, ?_⟩
  intro e2 h
  simp [Error.ofSource, h]

/-- C3 (counterexample): two dispatchers configured with different
`backoff_min` values (1 and 2 nanoseconds) but the same URI start into
byte-for-byte identical states, so no backoff delay starting at
`backoff_min` exists anywhere in the dispatcher; the bounds are dead
configuration. -/
theorem c3_counterexample :
    (RedisActorBuilder.mk { RedisConfig.default with exponential_backoff := (1, 4) }).start =
      (RedisActorBuilder.mk { RedisConfig.default with exponential_backoff := (2, 4) }).start ∧
    (RedisActorBuilder.mk { RedisConfig.default with exponential_backoff := (1, 4) }).start.2 =
      .ok ⟨⟨"redis://127.0.0.1:6379"⟩⟩ :=
  ⟨rfl, rfl⟩

/-- C3 (amended): the builder records the backoff bounds in the
configuration, but they are never applied: starting is invariant under
replacing the bounds, and handling a command is a function of the actor
state alone, which retains no backoff value and never changes. -/
theorem c3_amended (b : RedisActorBuilder) (lo hi : Nat) (cfg : RedisConfig)
    (a : RedisActor) (w : World) (c : RCmd) :
    (b.exponential_backoff lo hi).config.exponential_backoff = (lo, hi) ∧
    (RedisActorBuilder.mk cfg).start =
      (RedisActorBuilder.mk { cfg with exponential_backoff := (0, 0) }).start ∧
    (a.handleCmd w c).actor = a :=
  ⟨rfl, rfl, (handleCmd_shape a w c).2⟩

/-- C4 (counterexample): with `use_connection_probe` set, `start` performs
no store-facing I/O at all (its effect trace is empty) and returns a
running handle — whatever the store would answer — instead of probing and
failing when the initial connection fails. -/
theorem c4_counterexample :
    RedisActor.build.use_connection_probe.start.1 = [] ∧
    RedisActor.build.use_connection_probe.start.2 = .ok ⟨⟨"redis://127.0.0.1:6379"⟩⟩ :=
  ⟨rfl, rfl⟩

/-- C4 (amended): the probe flag is stored but ignored: `start` never
attempts a connection, and its outcome is unchanged by toggling
`connection_probe` — it returns a handle exactly when the URI parses. -/
theorem c4_amended (b : RedisActorBuilder) (cfg : RedisConfig) :
    b.start.1 = [] ∧
    b.use_connection_probe.start = b.start ∧
    (RedisActorBuilder.mk { cfg with connection_probe := true }).start =
      (RedisActorBuilder.mk { cfg with connection_probe := false }).start := by
  refine ⟨?_, rfl, rfl⟩
  unfold RedisActorBuilder.start
  rcases Client.open b.config.redis_uri with e | c <;> simp

/-- C5 (confirmed): whenever the connection succeeds and the store answers
each command of the batch, the pipeline handler returns the ordered bulk of
per-command replies: one reply per command, the i-th reply belonging to the
i-th command, for every batch size including zero. -/
theorem c5_pipeline_order (a : RedisActor) (w : World) (conn : Conn) (p : Pipeline)
    (reply : RCmd → Value)
    (hconn : w.connect a.client = .ok conn)
    (hrun : ∀ c ∈ p.commands, w.run conn c = .ok (reply c)) :
    (a.handlePipe w ⟨p⟩).result = .ok (.bulk (p.commands.map reply)) ∧
    (p.commands.map reply).length = p.commands.length ∧
    ∀ (i : Nat) (h1 : i < (p.commands.map reply).length) (h2 : i < p.commands.length),
      (p.commands.map reply).get ⟨i, h1⟩ = reply (p.commands.get ⟨i, h2⟩) := by
  have hpipe := w.runPipe_ok conn reply p.commands hrun
  refine ⟨?_, by simp, ?_⟩
  · unfold RedisActor.handlePipe
    simp [hconn, hpipe]
  · intro i h1 h2
    simp

/-- Witness for C5: a healthy store and a two-command batch; the handler
returns the two status replies in submission order. -/
theorem c5_witness :
    ((RedisActor.mk ⟨"redis://127.0.0.1:6379"⟩).handlePipe okWorld
        ⟨⟨[⟨"PING", []⟩, ⟨"GET", ["key"]⟩]⟩⟩).result =
      .ok (.bulk (([⟨"PING", []⟩, ⟨"GET", ["key"]⟩] : List RCmd).map
        fun c => Value.status c.name)) :=
  (c5_pipeline_order ⟨⟨"redis://127.0.0.1:6379"⟩⟩ okWorld ⟨0⟩
    ⟨[⟨"PING", []⟩, ⟨"GET", ["key"]⟩]⟩ (fun c => Value.status c.name) rfl
    (fun _ _ => rfl)).1

/-- C6 (confirmed): a URI the redis client cannot parse makes `start` fail
with the invalid-client-config (Configuration) error, and no store-facing
I/O is performed. -/
theorem c6_invalid_uri (b : RedisActorBuilder)
    (h : validRedisUri b.config.redis_uri = false) :
    b.start.1 = [] ∧
    b.start.2 = .error ⟨.invalidClientConfig, "Redis URL did not parse"⟩ := by
  have hopen : Client.open b.config.redis_uri =
      .error ⟨.invalidClientConfig, "Redis URL did not parse"⟩ := by
    simp [Client.open, h]
  constructor <;> simp [RedisActorBuilder.start, hopen]

/-- Witness for C6: an http address is rejected at startup with the
configuration-kind error and an empty effect trace. -/
theorem c6_witness :
    (RedisActor.build.set_uri "http://example.com").start.1 = [] ∧
    (RedisActor.build.set_uri "http://example.com").start.2 =
      .error ⟨.invalidClientConfig, "Redis URL did not parse"⟩ :=
  c6_invalid_uri (RedisActor.build.set_uri "http://example.com") rfl

/-- C7 (confirmed): `Pipe::line` clones the pipeline the caller's mutable
reference points at, so the message snapshots the value at hand-off:
executing it is executing that snapshot, the caller still observes its own
later mutation through the reference, and a message built from the mutated
heap would hold the mutated value while the earlier message keeps the old
one. -/
theorem c7_clone_snapshot (hp : Heap) (r : Nat) (upd : Pipeline → Pipeline)
    (a : RedisActor) (w : World) :
    (Pipe.line hp r).pipeline = hp.get r ∧
    a.handlePipe w (Pipe.line hp r) = a.handlePipe w ⟨hp.get r⟩ ∧
    (hp.set r (upd (hp.get r))).get r = upd (hp.get r) ∧
    Pipe.line (hp.set r (upd (hp.get r))) r = ⟨upd (hp.get r)⟩ ∧
    Pipe.line hp r = ⟨hp.get r⟩ := by
  refine ⟨rfl, rfl, ?_, ?_, rfl⟩ <;>
    simp [Pipe.line, Pipeline.clone, Heap.get, Heap.set]

/-- C8 (confirmed): building without calling any setter yields the default
configuration: breaker disabled, both backoff bounds zero, threshold zero,
probing disabled, and the local default store address on Redis's default
port 6379. -/
theorem c8_defaults :
    RedisActor.build.config =
      { use_breaker := false
        exponential_backoff := (0, 0)
        errors_threshold := 0
        connection_probe := false
        redis_uri := "redis://127.0.0.1:6379" } :=
  rfl

/-- C9 (confirmed): two configurations agreeing on the store URI start
identically — same effects, same startup outcome — and any actors they
start are equal and handle every command and batch identically: observable
behaviour depends only on the URI. -/
theorem c9_uri_only (c1 c2 : RedisConfig) (h : c1.redis_uri = c2.redis_uri) :
    (RedisActorBuilder.mk c1).start = (RedisActorBuilder.mk c2).start ∧
    ∀ a1 a2 : RedisActor,
      (RedisActorBuilder.mk c1).start.2 = .ok a1 →
      (RedisActorBuilder.mk c2).start.2 = .ok a2 →
      a1 = a2 ∧
      ∀ (w : World) (c : RCmd) (m : Pipe),
        a1.handleCmd w c = a2.handleCmd w c ∧ a1.handlePipe w m = a2.handlePipe w m := by
  have hs := start_uri_congr c1 c2 h
  refine ⟨hs, ?_⟩
  intro a1 a2 h1 h2
  rw [hs, h2] at h1
  injection h1 with h3
  subst h3
  exact ⟨rfl, fun w c m => ⟨rfl, rfl⟩⟩

/-- A configuration with every resilience toggle switched on, agreeing with
the default on the URI. -/
def loadedConfig : RedisConfig :=
  { use_breaker := true
    exponential_backoff := (1000000, 8000000)
    errors_threshold := 5
    connection_probe := true
    redis_uri := "redis://127.0.0.1:6379" }

/-- Witness for C9: the default configuration and the fully loaded one
start identically, and their (equal) actors handle a command and a batch
identically against a refusing store. -/
theorem c9_witness :
    (RedisActorBuilder.mk RedisConfig.default).start =
      (RedisActorBuilder.mk loadedConfig).start ∧
    RedisActor.handleCmd ⟨⟨"redis://127.0.0.1:6379"⟩⟩ refusedWorld ⟨"PING", []⟩ =
      RedisActor.handleCmd ⟨⟨"redis://127.0.0.1:6379"⟩⟩ refusedWorld ⟨"PING", []⟩ :=
  ⟨(c9_uri_only RedisConfig.default loadedConfig rfl).1,
   (((c9_uri_only RedisConfig.default loadedConfig rfl).2
      ⟨⟨"redis://127.0.0.1:6379"⟩⟩ ⟨⟨"redis://127.0.0.1:6379"⟩⟩ rfl rfl).2
      refusedWorld ⟨"PING", []⟩ ⟨⟨[]⟩⟩).1⟩

/-- C10 (confirmed): each builder setter rewrites exactly its own
configuration field and leaves the four others unchanged; setters return
the builder and distinct setters commute, so chains compose in any
order. -/
theorem c10_setters_frame (b : RedisActorBuilder) (lo hi count : Nat) (u : String) :
    (b.use_breaker = ⟨{ b.config with use_breaker := true }⟩ ∧
     b.exponential_backoff lo hi = ⟨{ b.config with exponential_backoff := (lo, hi) }⟩ ∧
     b.errors_threshold count = ⟨{ b.config with errors_threshold := count }⟩ ∧
     b.use_connection_probe = ⟨{ b.config with connection_probe := true }⟩ ∧
     b.set_uri u = ⟨{ b.config with redis_uri := u }⟩) ∧
    (b.use_breaker.config.exponential_backoff = b.config.exponential_backoff ∧
     b.use_breaker.config.errors_threshold = b.config.errors_threshold ∧
     b.use_breaker.config.connection_probe = b.config.connection_probe ∧
     b.use_breaker.config.redis_uri = b.config.redis_uri) ∧
    ((b.exponential_backoff lo hi).config.use_breaker = b.config.use_breaker ∧
     (b.exponential_backoff lo hi).config.errors_threshold = b.config.errors_threshold ∧
     (b.exponential_backoff lo hi).config.connection_probe = b.config.connection_probe ∧
     (b.exponential_backoff lo hi).config.redis_uri = b.config.redis_uri) ∧
    ((b.errors_threshold count).config.use_breaker = b.config.use_breaker ∧
     (b.errors_threshold count).config.exponential_backoff = b.config.exponential_backoff ∧
     (b.errors_threshold count).config.connection_probe = b.config.connection_probe ∧
     (b.errors_threshold count).config.redis_uri = b.config.redis_uri) ∧
    (b.use_connection_probe.config.use_breaker = b.config.use_breaker ∧
     b.use_connection_probe.config.exponential_backoff = b.config.exponential_backoff ∧
     b.use_connection_probe.config.errors_threshold = b.config.errors_threshold ∧
     b.use_connection_probe.config.redis_uri = b.config.redis_uri) ∧
    ((b.set_uri u).config.use_breaker = b.config.use_breaker ∧
     (b.set_uri u).config.exponential_backoff = b.config.exponential_backoff ∧
     (b.set_uri u).config.errors_threshold = b.config.errors_threshold ∧
     (b.set_uri u).config.connection_probe = b.config.connection_probe) ∧
    (b.use_breaker.errors_threshold count = (b.errors_threshold count).use_breaker ∧
     (b.set_uri u).use_connection_probe = b.use_connection_probe.set_uri u ∧
     (b.exponential_backoff lo hi).use_breaker = b.use_breaker.exponential_backoff lo hi) :=
  ⟨⟨rfl, rfl, rfl, rfl, rfl⟩, ⟨rfl, rfl, rfl, rfl⟩, ⟨rfl, rfl, rfl, rfl⟩,
   ⟨rfl, rfl, rfl, rfl⟩, ⟨rfl, rfl, rfl, rfl⟩, ⟨rfl, rfl, rfl, rfl⟩, ⟨rfl, rfl, rfl⟩⟩

end Redactor
